import Mathlib

/-!
Verification of the `todo_phase2` backend (FastAPI + SQLModel todo service).

The development shallowly embeds the authentication/authorization core and
the task CRUD handlers of the repository:

* `backend/config.py`   → `Settings`, `Settings.validate`
* `backend/auth.py`     → `hash_password`, `verify_password`,
                          `create_access_token`, `verify_token`,
                          `validate_user_access`
* `backend/models.py`   → `User`, `Task`, request/response records
* `backend/routes/auth.py`  → `signup`, `signin`
* `backend/routes/tasks.py` → `get_tasks`, `create_task`, `get_task`,
                          `update_task`, `delete_task`, `toggle_task_completion`
* `backend/main.py`, `backend/api/index.py` → `mainModuleInit`, `indexModuleInit`

Timestamps (`datetime.utcnow()`) are modelled as natural numbers supplied to
the handlers as a `now` argument; the database session is modelled as an
explicit `DBState` record threaded through mutating handlers (a handler that
raises an HTTP exception returns the state unchanged, matching the
uncommitted transaction).  Python `int` values are modelled as `Int`.
-/

namespace TodoPhase2

/-! ### Decimal strings: model of Python `str()` / `int()` conversions -/

/-- Character for a single decimal digit `d < 10` (Python digit rendering). -/
def digitChar (d : Nat) : Char := Char.ofNat (48 + d)

/-- Fuel-driven digit extraction; with fuel at least `n` it computes the
decimal digits of `n`, least significant first. -/
def toRevDigitsAux : Nat → Nat → List Nat
  | _, 0 => []
  | 0, _ + 1 => []
  | fuel + 1, n + 1 => ((n + 1) % 10) :: toRevDigitsAux fuel ((n + 1) / 10)

/-- Decimal digits of `n`, least significant first (empty for `0`). -/
def toRevDigits (n : Nat) : List Nat := toRevDigitsAux n n

/-- Model of Python `str()` on a nonnegative integer. -/
def natToString (n : Nat) : String :=
  if n = 0 then "0" else ⟨((toRevDigits n).reverse.map digitChar)⟩

/-- Model of Python `str()` on an arbitrary integer. -/
def intToString (i : Int) : String :=
  if i < 0 then "-" ++ natToString i.natAbs else natToString i.toNat

/-- Numeric value of a decimal digit character. -/
def digitVal (c : Char) : Nat := c.toNat - 48

/-- Value of a most-significant-first decimal digit string. -/
def decDigitsVal (l : List Char) : Nat :=
  l.foldl (fun a c => 10 * a + digitVal c) 0

/-- Parse an unsigned run of decimal digits; `none` unless nonempty and all digits. -/
def pyDigits? (l : List Char) : Option Nat :=
  if !l.isEmpty && l.all (·.isDigit) then some (decDigitsVal l) else none

/-- Model of Python `int(str)` on strings without surrounding whitespace:
an optional sign followed by at least one decimal digit, else `ValueError`
(`none`). -/
def pyInt (s : String) : Option Int :=
  match s.data with
  | [] => none
  | c :: rest =>
    if c = '-' then (pyDigits? rest).map (fun n => -(n : Int))
    else if c = '+' then (pyDigits? rest).map (fun n => (n : Int))
    else (pyDigits? (c :: rest)).map (fun n => (n : Int))

/-! ### Configuration — `backend/config.py` -/

/-- `Settings` in `backend/config.py`. -/
structure Settings where
  DATABASE_URL : String
  BETTER_AUTH_SECRET : String
  JWT_ALGORITHM : String := "HS256"
  JWT_EXPIRATION_DAYS : Nat := 7
deriving DecidableEq

/-- `Settings.validate`: fails on a missing database URL, a missing signing
secret, or a signing secret shorter than 32 characters. -/
def Settings.validate (s : Settings) : Except String Unit :=
  if s.DATABASE_URL = "" then
    .error "DATABASE_URL is required. Please set it in backend/.env file."
  else if s.BETTER_AUTH_SECRET = "" then
    .error "BETTER_AUTH_SECRET is required. Please set it in backend/.env file."
  else if s.BETTER_AUTH_SECRET.length < 32 then
    .error "BETTER_AUTH_SECRET must be at least 32 characters long. Generate a secure secret with: openssl rand -base64 32"
  else
    .ok ()

/-! ### Errors raised by handlers -/

/-- Exceptions escaping a route handler: FastAPI `HTTPException`s carrying a
status code and a detail string, or an unhandled Python `ValueError`. -/
inductive PyError where
  | http (status : Nat) (detail : String)
  | valueError
deriving DecidableEq

instance exceptDecEq {ε α : Type} [DecidableEq ε] [DecidableEq α] :
    DecidableEq (Except ε α) := fun
  | .ok a, .ok b =>
    if h : a = b then .isTrue (congrArg Except.ok h)
    else .isFalse (fun hc => h (Except.ok.inj hc))
  | .error e, .error f =>
    if h : e = f then .isTrue (congrArg Except.error h)
    else .isFalse (fun hc => h (Except.error.inj hc))
  | .ok _, .error _ => .isFalse (fun hc => Except.noConfusion hc)
  | .error _, .ok _ => .isFalse (fun hc => Except.noConfusion hc)

/-- The 403 raised by `validate_user_access`. -/
def forbiddenError : PyError := .http 403 "Cannot access other user's resources"

/-- The 404 raised by the four by-id task handlers. -/
def notFoundError : PyError := .http 404 "Task not found"

/-- `true` exactly on a 403 Forbidden outcome. -/
def isForbiddenOutcome {α : Type} : Except PyError α → Bool
  | .error (.http 403 _) => true
  | _ => false

/-! ### JWT — `backend/auth.py` -/

/-- A decoded JWT claim set: `sub`/`email` are optional string claims,
`exp`/`iat` optional numeric-date claims. -/
structure Payload where
  sub : Option String
  email : Option String
  exp : Option Nat
  iat : Option Nat
deriving DecidableEq

/-- Accumulating hash of a string. -/
def strHash (s : String) (a : Nat) : Nat :=
  s.data.foldl (fun h c => h * 131 + c.toNat + 1) a

/-- Hash of an optional string claim. -/
def optStrHash (o : Option String) (a : Nat) : Nat :=
  match o with
  | none => a * 131
  | some s => strHash s (a * 131 + 7)

/-- Hash of an optional numeric claim. -/
def optNatHash (o : Option Nat) (a : Nat) : Nat :=
  match o with
  | none => a * 131
  | some n => a * 131 + n + 7

/-- Model of the HMAC-SHA256 tag computed by `jose.jwt` over the serialized
payload: an unspecified-but-fixed function of the secret and the claims.  The
verified properties depend only on the verifier recomputing the same
function, not on any cryptographic property of it. -/
def jwtSign (secret : String) (p : Payload) : Nat :=
  strHash secret (optStrHash p.sub (optStrHash p.email
    (optNatHash p.exp (optNatHash p.iat 5))))

/-- An encoded token: the claims together with the signature tag. -/
structure Token where
  payload : Payload
  sig : Nat
deriving DecidableEq

/-- `jose.jwt.encode`. -/
def jwtEncode (secret : String) (p : Payload) : Token :=
  ⟨p, jwtSign secret p⟩

/-- The `jose.JWTError` family (`ExpiredSignatureError` is a subclass). -/
inductive JWTErr where
  | invalidSignature
  | expiredSignature
deriving DecidableEq

/-- `jose.jwt.decode`: checks the signature, then the `exp` claim (when
present) against the current time. -/
def jwtDecode (secret : String) (now : Nat) (t : Token) : Except JWTErr Payload :=
  if t.sig ≠ jwtSign secret t.payload then .error .invalidSignature
  else
    match t.payload.exp with
    | some e => if e < now then .error .expiredSignature else .ok t.payload
    | none => .ok t.payload

/-- `create_access_token` in `backend/auth.py`: issues a token whose subject
is the decimal rendering of the user id, with expiry
`JWT_EXPIRATION_DAYS` days after `now`. -/
def create_access_token (s : Settings) (now : Nat) (user_id : Int) (email : String) : Token :=
  let expire := now + s.JWT_EXPIRATION_DAYS * 86400
  jwtEncode s.BETTER_AUTH_SECRET
    { sub := some (intToString user_id), email := some email,
      exp := some expire, iat := some now }

/-- The dictionary returned by `verify_token`. -/
structure TokenData where
  user_id : Int
  email : String
deriving DecidableEq

/-- `verify_token` in `backend/auth.py`.  A `JWTError` from decoding becomes
a 401 with detail "Could not validate credentials"; a decoded payload missing
the `sub` or `email` claim raises a 401 with detail "Invalid authentication
credentials" (the `HTTPException` raised inside the `try` block is not a
`JWTError`, so it propagates unchanged); the `int()` conversion of a
non-numeric subject raises an unhandled `ValueError`. -/
def verify_token (s : Settings) (now : Nat) (t : Token) : Except PyError TokenData :=
  match jwtDecode s.BETTER_AUTH_SECRET now t with
  | .error _ => .error (.http 401 "Could not validate credentials")
  | .ok payload =>
    match payload.sub, payload.email with
    | some uid, some em =>
      match pyInt uid with
      | some n => .ok ⟨n, em⟩
      | none => .error .valueError
    | _, _ => .error (.http 401 "Invalid authentication credentials")

/-- `validate_user_access` in `backend/auth.py`: the single equality check
between the token-derived user id and the path user id. -/
def validate_user_access (current_user_id resource_user_id : Int) : Except PyError Unit :=
  if current_user_id ≠ resource_user_id then .error forbiddenError else .ok ()

/-! ### Passwords — `backend/auth.py` -/

/-- Model of a bcrypt hash: represented by the plaintext it verifies
against.  Salting and irreversibility are cryptographic properties of bcrypt
not relied on by any verified claim; what matters is that `verify_password`
succeeds exactly on the hashed plaintext. -/
structure PasswordHash where
  verifies : String
deriving DecidableEq

/-- `hash_password`. -/
def hash_password (password : String) : PasswordHash := ⟨password⟩

/-- `verify_password`. -/
def verify_password (plain : String) (hashed : PasswordHash) : Bool :=
  plain == hashed.verifies

/-! ### Data model — `backend/models.py` -/

/-- Row of the `users` table. -/
structure User where
  id : Int
  email : String
  password_hash : PasswordHash
  created_at : Nat
deriving DecidableEq

/-- Row of the `tasks` table. -/
structure Task where
  id : Int
  user_id : Int
  title : String
  description : Option String
  is_completed : Bool
  created_at : Nat
  updated_at : Nat
deriving DecidableEq

/-- `UserResponse`. -/
structure UserResponse where
  id : Int
  email : String
  created_at : Nat
deriving DecidableEq

/-- `TaskResponse`. -/
structure TaskResponse where
  id : Int
  user_id : Int
  title : String
  description : Option String
  is_completed : Bool
  created_at : Nat
  updated_at : Nat
deriving DecidableEq

/-- The `TaskResponse` built field-by-field from a task row by every task
handler. -/
def Task.toResponse (t : Task) : TaskResponse :=
  ⟨t.id, t.user_id, t.title, t.description, t.is_completed, t.created_at, t.updated_at⟩

/-- `UserCreate` request body. -/
structure UserCreate where
  email : String
  password : String
deriving DecidableEq

/-- `UserLogin` request body. -/
structure UserLogin where
  email : String
  password : String
deriving DecidableEq

/-- `TaskCreate` request body. -/
structure TaskCreate where
  title : String
  description : Option String
deriving DecidableEq

/-- `TaskUpdate` request body: omitted fields arrive as `None`. -/
structure TaskUpdate where
  title : Option String
  description : Option String
deriving DecidableEq

/-- `TaskCompletionToggle` request body. -/
structure TaskCompletionToggle where
  is_completed : Bool
deriving DecidableEq

/-! ### Database state -/

/-- The visible database contents: rows in insertion order plus the
autoincrement counters. -/
structure DBState where
  users : List User
  tasks : List Task
  nextUserId : Int
  nextTaskId : Int
deriving DecidableEq

/-- `SELECT … FROM users WHERE email = …` under the unique-email constraint
(`scalar_one_or_none`). -/
def findUserByEmail (st : DBState) (email : String) : Option User :=
  st.users.find? (fun u => u.email == email)

/-- `SELECT … FROM tasks WHERE id = … AND user_id = …` under the primary-key
constraint (`scalar_one_or_none`). -/
def findTask (st : DBState) (uid tid : Int) : Option Task :=
  st.tasks.find? (fun t => t.id == tid && t.user_id == uid)

/-- Comparison used by `ORDER BY created_at`. -/
def taskLE (a b : Task) : Bool := decide (a.created_at ≤ b.created_at)

/-- `SELECT … FROM tasks WHERE user_id = … ORDER BY created_at`: one
concrete refinement of the query contract `isOrderByCreatedAtResult` below,
chosen so the embedding is executable.  The SQL query names no secondary
sort key, so the relative order this function gives to rows with equal
`created_at` (their insertion order) is a choice of the model, not a
guarantee of the program. -/
def tasksForUser (st : DBState) (uid : Int) : List Task :=
  (st.tasks.filter (fun t => t.user_id == uid)).mergeSort taskLE

/-- What the `ORDER BY created_at` query actually guarantees for the rows
matching `user_id = uid`: the result is a permutation of those rows that is
non-decreasing in `created_at`.  With no secondary sort key, SQL leaves the
relative order of rows with equal `created_at` unspecified, so any list
satisfying this contract is a possible answer. -/
def isOrderByCreatedAtResult (input out : List Task) : Prop :=
  out.Perm input ∧ out.Pairwise (fun a b => a.created_at ≤ b.created_at)

/-! ### Task routes — `backend/routes/tasks.py`

Each handler receives the already-authenticated identity (`current_user`,
produced by the `get_current_user` dependency, i.e. `verify_token`), the
path parameters, the parsed request body, the current time, and the database
state.  Mutating handlers return the resulting state; a raised
`HTTPException` leaves the state unchanged (the transaction is never
flushed). -/

/-- `GET /api/{user_id}/tasks`: after the access check, the query is keyed
by the token-derived user id, not the path value. -/
def get_tasks (current_user : TokenData) (user_id : Int) (st : DBState) :
    Except PyError (List TaskResponse) :=
  match validate_user_access current_user.user_id user_id with
  | .error e => .error e
  | .ok _ => .ok ((tasksForUser st current_user.user_id).map Task.toResponse)

/-- `POST /api/{user_id}/tasks`: the new row's owner is the token-derived
user id, never the path value; `created_at = updated_at = now`. -/
def create_task (task_data : TaskCreate) (user_id : Int) (current_user : TokenData)
    (now : Nat) (st : DBState) : Except PyError TaskResponse × DBState :=
  match validate_user_access current_user.user_id user_id with
  | .error e => (.error e, st)
  | .ok _ =>
    let new_task : Task :=
      { id := st.nextTaskId, user_id := current_user.user_id,
        title := task_data.title, description := task_data.description,
        is_completed := false, created_at := now, updated_at := now }
    (.ok new_task.toResponse,
      { st with tasks := st.tasks ++ [new_task], nextTaskId := st.nextTaskId + 1 })

/-- `GET /api/{user_id}/tasks/{id}`. -/
def get_task (user_id id : Int) (current_user : TokenData) (st : DBState) :
    Except PyError TaskResponse :=
  match validate_user_access current_user.user_id user_id with
  | .error e => .error e
  | .ok _ =>
    match findTask st current_user.user_id id with
    | none => .error notFoundError
    | some task => .ok task.toResponse

/-- `PUT /api/{user_id}/tasks/{id}`: partial update — only supplied fields
change, `updated_at` is set to `now`, the row is replaced in place. -/
def update_task (task_update : TaskUpdate) (user_id id : Int) (current_user : TokenData)
    (now : Nat) (st : DBState) : Except PyError TaskResponse × DBState :=
  match validate_user_access current_user.user_id user_id with
  | .error e => (.error e, st)
  | .ok _ =>
    match findTask st current_user.user_id id with
    | none => (.error notFoundError, st)
    | some task =>
      let task' : Task :=
        { task with
          title := match task_update.title with | some v => v | none => task.title,
          description := match task_update.description with
            | some v => some v | none => task.description,
          updated_at := now }
      (.ok task'.toResponse,
        { st with tasks := st.tasks.map (fun x => if x.id == task.id then task' else x) })

/-- `DELETE /api/{user_id}/tasks/{id}`: hard delete of the row. -/
def delete_task (user_id id : Int) (current_user : TokenData) (st : DBState) :
    Except PyError Unit × DBState :=
  match validate_user_access current_user.user_id user_id with
  | .error e => (.error e, st)
  | .ok _ =>
    match findTask st current_user.user_id id with
    | none => (.error notFoundError, st)
    | some task =>
      (.ok (), { st with tasks := st.tasks.filter (fun x => !(x.id == task.id)) })

/-- `PATCH /api/{user_id}/tasks/{id}/complete`: sets `is_completed` to the
supplied value and refreshes `updated_at`. -/
def toggle_task_completion (completion_data : TaskCompletionToggle) (user_id id : Int)
    (current_user : TokenData) (now : Nat) (st : DBState) :
    Except PyError TaskResponse × DBState :=
  match validate_user_access current_user.user_id user_id with
  | .error e => (.error e, st)
  | .ok _ =>
    match findTask st current_user.user_id id with
    | none => (.error notFoundError, st)
    | some task =>
      let task' : Task :=
        { task with is_completed := completion_data.is_completed, updated_at := now }
      (.ok task'.toResponse,
        { st with tasks := st.tasks.map (fun x => if x.id == task.id then task' else x) })

/-! ### Auth routes — `backend/routes/auth.py` -/

/-- `POST /auth/signup`: rejects an already-registered email (case-sensitive
exact match) with 400 Conflict; otherwise hashes the password, persists the
identity, and issues a token. -/
def signup (user_data : UserCreate) (now : Nat) (s : Settings) (st : DBState) :
    Except PyError (Token × UserResponse) × DBState :=
  match findUserByEmail st user_data.email with
  | some _ => (.error (.http 400 "Email already registered"), st)
  | none =>
    let new_user : User :=
      { id := st.nextUserId, email := user_data.email,
        password_hash := hash_password user_data.password, created_at := now }
    let token := create_access_token s now new_user.id new_user.email
    (.ok (token, ⟨new_user.id, new_user.email, new_user.created_at⟩),
      { st with users := st.users ++ [new_user], nextUserId := st.nextUserId + 1 })

/-- `POST /auth/signin`: a single generic 401 for both an unknown email and a
failed password verification. -/
def signin (credentials : UserLogin) (now : Nat) (s : Settings) (st : DBState) :
    Except PyError (Token × UserResponse) :=
  match findUserByEmail st credentials.email with
  | none => .error (.http 401 "Invalid email or password")
  | some user =>
    if verify_password credentials.password user.password_hash then
      .ok (create_access_token s now user.id user.email,
        ⟨user.id, user.email, user.created_at⟩)
    else
      .error (.http 401 "Invalid email or password")

/-! ### Application entry points — `backend/main.py` and `backend/api/index.py` -/

/-- A constructed FastAPI application: requests are served only through a
value of this type. -/
structure FastAPIApp where
  settings : Settings
deriving DecidableEq

/-- Module initialization of `backend/main.py`: `settings.validate()` runs
at module load, before the app is created, so an invalid configuration
aborts startup and no request is ever served. -/
def mainModuleInit (s : Settings) : Except String FastAPIApp :=
  match s.validate with
  | .error msg => .error msg
  | .ok _ => .ok ⟨s⟩

/-- Module initialization of `backend/api/index.py` (the serverless entry
point): the app is created without any call to `settings.validate()`. -/
def indexModuleInit (s : Settings) : Except String FastAPIApp :=
  .ok ⟨s⟩

/-! ### Scoping predicates used to state the authorization claims -/

/-- Every task in a successful list response belongs to `uid`. -/
def listScopedTo (uid : Int) : Except PyError (List TaskResponse) → Prop
  | .ok l => ∀ r ∈ l, r.user_id = uid
  | .error _ => True

/-- A successful single-task response belongs to `uid`. -/
def respScopedTo (uid : Int) : Except PyError TaskResponse → Prop
  | .ok r => r.user_id = uid
  | .error _ => True

/-- The state transition only adds or rewrites rows owned by `uid` and only
removes rows owned by `uid`. -/
def touchesOnlyUser (uid : Int) (st st2 : DBState) : Prop :=
  (∀ t ∈ st2.tasks, t ∈ st.tasks ∨ t.user_id = uid) ∧
  (∀ t ∈ st.tasks, t ∈ st2.tasks ∨ t.user_id = uid)

/-- Primary-key uniqueness of the `tasks` table. -/
def uniqueTaskIds (st : DBState) : Prop :=
  st.tasks.Pairwise (fun a b => a.id ≠ b.id)

/-! ### Decimal round-trip lemmas -/

/-- Value of a least-significant-first digit list. -/
def valRev : List Nat → Nat
  | [] => 0
  | d :: ds => d + 10 * valRev ds

lemma digitVal_digitChar {d : Nat} (h : d < 10) : digitVal (digitChar d) = d := by
  interval_cases d <;> decide

lemma isDigit_digitChar {d : Nat} (h : d < 10) : (digitChar d).isDigit = true := by
  interval_cases d <;> decide

lemma digitChar_ne_sign {d : Nat} (h : d < 10) : digitChar d ≠ '-' ∧ digitChar d ≠ '+' := by
  interval_cases d <;> decide

lemma toRevDigitsAux_congr :
    ∀ (f1 f2 n : Nat), n ≤ f1 → n ≤ f2 → toRevDigitsAux f1 n = toRevDigitsAux f2 n := by
  intro f1
  induction f1 with
  | zero =>
    intro f2 n h1 _
    have : n = 0 := by omega
    subst this
    cases f2 <;> rfl
  | succ f ih =>
    intro f2 n h1 h2
    cases n with
    | zero => cases f2 <;> rfl
    | succ m =>
      cases f2 with
      | zero => omega
      | succ g =>
        show ((m + 1) % 10) :: toRevDigitsAux f ((m + 1) / 10)
            = ((m + 1) % 10) :: toRevDigitsAux g ((m + 1) / 10)
        rw [ih g ((m + 1) / 10) (by omega) (by omega)]

lemma toRevDigits_succ (n : Nat) :
    toRevDigits (n + 1) = ((n + 1) % 10) :: toRevDigits ((n + 1) / 10) := by
  show ((n + 1) % 10) :: toRevDigitsAux n ((n + 1) / 10)
      = ((n + 1) % 10) :: toRevDigits ((n + 1) / 10)
  rw [toRevDigitsAux_congr n ((n + 1) / 10) ((n + 1) / 10) (by omega) (Nat.le_refl _)]
  rfl

lemma toRevDigits_lt (n : Nat) : ∀ d ∈ toRevDigits n, d < 10 := by
  induction n using Nat.strong_induction_on with
  | _ n ih =>
    cases n with
    | zero => intro d hd; cases hd
    | succ m =>
      intro d hd
      rw [toRevDigits_succ] at hd
      rcases List.mem_cons.mp hd with h | h
      · subst h; exact Nat.mod_lt _ (by omega)
      · exact ih ((m + 1) / 10) (by omega) d h

lemma valRev_toRevDigits (n : Nat) : valRev (toRevDigits n) = n := by
  induction n using Nat.strong_induction_on with
  | _ n ih =>
    cases n with
    | zero => rfl
    | succ m =>
      rw [toRevDigits_succ, valRev, ih ((m + 1) / 10) (by omega)]
      omega

lemma foldl_digits (l : List Nat) (hl : ∀ d ∈ l, d < 10) (a : Nat) :
    List.foldl (fun x c => 10 * x + digitVal c) a (l.reverse.map digitChar) =
      a * 10 ^ l.length + valRev l := by
  induction l generalizing a with
  | nil => simp [valRev]
  | cons d ds ih =>
    rw [List.reverse_cons, List.map_append, List.foldl_append]
    rw [ih (fun x hx => hl x (List.mem_cons_of_mem _ hx))]
    simp only [List.map_cons, List.map_nil, List.foldl_cons, List.foldl_nil]
    rw [digitVal_digitChar (hl d (List.mem_cons_self _ _))]
    simp only [valRev, List.length_cons]
    ring

lemma decDigitsVal_rev (l : List Nat) (hl : ∀ d ∈ l, d < 10) :
    decDigitsVal (l.reverse.map digitChar) = valRev l := by
  rw [decDigitsVal, foldl_digits l hl 0, Nat.zero_mul, Nat.zero_add]

lemma toRevDigits_ne_nil {n : Nat} (h : 0 < n) : toRevDigits n ≠ [] := by
  cases n with
  | zero => omega
  | succ m => rw [toRevDigits_succ]; exact List.cons_ne_nil _ _

lemma pyDigits?_digits (n : Nat) (h : 0 < n) :
    pyDigits? ((toRevDigits n).reverse.map digitChar) = some n := by
  have hne : (toRevDigits n).reverse.map digitChar ≠ [] := by
    simp [toRevDigits_ne_nil h]
  have hall : ((toRevDigits n).reverse.map digitChar).all (·.isDigit) = true := by
    rw [List.all_eq_true]
    intro c hc
    rcases List.mem_map.mp hc with ⟨d, hd, rfl⟩
    exact isDigit_digitChar (toRevDigits_lt n d (List.mem_reverse.mp hd))
  have hempty : ((toRevDigits n).reverse.map digitChar).isEmpty = false := by
    cases hml : (toRevDigits n).reverse.map digitChar with
    | nil => exact absurd hml hne
    | cons c cs => rfl
  rw [pyDigits?, hempty, hall]
  rw [decDigitsVal_rev _ (toRevDigits_lt n), valRev_toRevDigits]
  rfl

lemma natToString_data {n : Nat} (h : 0 < n) :
    (natToString n).data = (toRevDigits n).reverse.map digitChar := by
  rw [natToString, if_neg (by omega)]

theorem pyInt_natToString (n : Nat) : pyInt (natToString n) = some (n : Int) := by
  rcases Nat.eq_zero_or_pos n with rfl | hpos
  · decide
  · have hdata := natToString_data hpos
    have hne : (toRevDigits n).reverse.map digitChar ≠ [] := by
      simp [toRevDigits_ne_nil hpos]
    obtain ⟨c, cs, hl⟩ := List.exists_cons_of_ne_nil hne
    have hcmem : c ∈ (toRevDigits n).reverse.map digitChar := by
      rw [hl]; exact List.mem_cons_self _ _
    rcases List.mem_map.mp hcmem with ⟨d, hd, rfl⟩
    have hd10 : d < 10 := toRevDigits_lt n d (List.mem_reverse.mp hd)
    simp only [pyInt, hdata, hl, if_neg (digitChar_ne_sign hd10).1,
      if_neg (digitChar_ne_sign hd10).2]
    rw [← hl, pyDigits?_digits n hpos]
    rfl

theorem pyInt_intToString (i : Int) : pyInt (intToString i) = some i := by
  rcases lt_or_le i 0 with hneg | hpos
  · have hABS : 0 < i.natAbs := by omega
    rw [intToString, if_pos hneg]
    have hdata : ("-" ++ natToString i.natAbs).data
        = '-' :: (toRevDigits i.natAbs).reverse.map digitChar := by
      rw [String.data_append, natToString_data hABS]; rfl
    have hform := pyDigits?_digits i.natAbs hABS
    simp only [pyInt, hdata, hform]
    simp only [Option.bind_eq_bind, Option.bind_some, Option.map_some, Option.some.injEq,
      Option.some_bind]
    simp [Int.ofNat_natAbs_of_nonpos (le_of_lt hneg)]
  · rw [intToString, if_neg (by omega), pyInt_natToString]
    congr 1
    omega

/-! ### C3: token round-trip -/

/-- C3: for every user id and email, verifying a token immediately after
issuing it succeeds and returns exactly the embedded user id and email,
round-tripping the id through the string-encoded `sub` claim. -/
theorem verify_create_access_token_roundtrip (s : Settings) (now : Nat)
    (id : Int) (email : String) :
    verify_token s now (create_access_token s now id email) = .ok ⟨id, email⟩ := by
  have hexp : ¬ (now + s.JWT_EXPIRATION_DAYS * 86400 < now) := by omega
  simp [verify_token, create_access_token, jwtEncode, jwtDecode, hexp,
    pyInt_intToString]

/-! ### C10: non-numeric subject claim escapes as a `ValueError` -/

/-- C10: a token with a valid signature and an unexpired payload whose `sub`
claim is the non-numeric string "abc" makes `verify_token` terminate with an
unhandled `ValueError`, not with the 401 Unauthenticated outcome. -/
theorem verify_token_nonnumeric_sub_valueError (s : Settings) (now : Nat) :
    (jwtEncode s.BETTER_AUTH_SECRET ⟨some "abc", some "e@x.com", some (now + 1), some now⟩).sig
        = jwtSign s.BETTER_AUTH_SECRET ⟨some "abc", some "e@x.com", some (now + 1), some now⟩
    ∧ ¬ (now + 1 < now)
    ∧ pyInt "abc" = none
    ∧ verify_token s now
        (jwtEncode s.BETTER_AUTH_SECRET ⟨some "abc", some "e@x.com", some (now + 1), some now⟩)
        = .error .valueError
    ∧ ∀ d, verify_token s now
        (jwtEncode s.BETTER_AUTH_SECRET ⟨some "abc", some "e@x.com", some (now + 1), some now⟩)
        ≠ .error (.http 401 d) := by
  have hver : verify_token s now
      (jwtEncode s.BETTER_AUTH_SECRET ⟨some "abc", some "e@x.com", some (now + 1), some now⟩)
      = .error .valueError := by
    have hexp : ¬ (now + 1 < now) := by omega
    have habc : pyInt "abc" = none := by decide
    simp [verify_token, jwtEncode, jwtDecode, hexp, habc]
  refine ⟨rfl, by omega, by decide, hver, fun d hc => ?_⟩
  rw [hver] at hc
  exact PyError.noConfusion (Except.error.inj hc)

/-! ### C4: verification failures share a status but not a detail string -/

/-- C4 counterexample: a token with an invalid signature fails with detail
"Could not validate credentials", while a validly-signed unexpired token
missing its `sub` claim fails with detail "Invalid authentication
credentials" — both 401, but the two details differ, so the three failure
modes do not all produce the same detail. -/
theorem verify_token_detail_counterexample :
    verify_token { DATABASE_URL := "db", BETTER_AUTH_SECRET := "k" } 0
        ⟨⟨some "1", some "a@x.com", some 1000, some 0⟩,
          jwtSign "k" ⟨some "1", some "a@x.com", some 1000, some 0⟩ + 1⟩
      = .error (.http 401 "Could not validate credentials")
  ∧ verify_token { DATABASE_URL := "db", BETTER_AUTH_SECRET := "k" } 0
        (jwtEncode "k" ⟨none, some "a@x.com", some 1000, some 0⟩)
      = .error (.http 401 "Invalid authentication credentials")
  ∧ "Could not validate credentials" ≠ "Invalid authentication credentials" := by
  decide

/-- C4 (amended): every verification failure is a 401; an invalid signature
and an expired token raise detail "Could not validate credentials", while a
payload that decodes but lacks the `sub` or `email` claim raises the
different detail "Invalid authentication credentials". -/
theorem verify_token_failure_modes (s : Settings) (now : Nat) (t : Token) (e : Nat) :
    (t.sig ≠ jwtSign s.BETTER_AUTH_SECRET t.payload →
      verify_token s now t = .error (.http 401 "Could not validate credentials"))
  ∧ (t.payload.exp = some e → e < now →
      verify_token s now t = .error (.http 401 "Could not validate credentials"))
  ∧ (jwtDecode s.BETTER_AUTH_SECRET now t = .ok t.payload →
      (t.payload.sub = none ∨ t.payload.email = none) →
      verify_token s now t = .error (.http 401 "Invalid authentication credentials")) := by
  refine ⟨fun hs => ?_, fun he hlt => ?_, fun hdec hmiss => ?_⟩
  · simp [verify_token, jwtDecode, hs]
  · by_cases hs : t.sig = jwtSign s.BETTER_AUTH_SECRET t.payload
    · simp [verify_token, jwtDecode, hs, he, hlt]
    · simp [verify_token, jwtDecode, hs]
  · rw [verify_token, hdec]
    rcases hmiss with h | h
    · simp [h]
    · cases hsub : t.payload.sub with
      | none => simp [hsub]
      | some u => simp [hsub, h]

/-- Witness for C4: the three failure modes at concrete tokens — bad
signature, expired, and missing email claim — produce exactly the stated
401 outcomes. -/
theorem verify_token_failure_modes_witness :
    verify_token { DATABASE_URL := "db", BETTER_AUTH_SECRET := "k" } 5
        ⟨⟨some "1", some "a@x.com", some 1000, some 0⟩,
          jwtSign "k" ⟨some "1", some "a@x.com", some 1000, some 0⟩ + 1⟩
      = .error (.http 401 "Could not validate credentials")
  ∧ verify_token { DATABASE_URL := "db", BETTER_AUTH_SECRET := "k" } 5
        (jwtEncode "k" ⟨some "1", some "a@x.com", some 1, some 0⟩)
      = .error (.http 401 "Could not validate credentials")
  ∧ verify_token { DATABASE_URL := "db", BETTER_AUTH_SECRET := "k" } 5
        (jwtEncode "k" ⟨some "1", none, some 1000, some 0⟩)
      = .error (.http 401 "Invalid authentication credentials") :=
  ⟨(verify_token_failure_modes { DATABASE_URL := "db", BETTER_AUTH_SECRET := "k" } 5
      ⟨⟨some "1", some "a@x.com", some 1000, some 0⟩,
        jwtSign "k" ⟨some "1", some "a@x.com", some 1000, some 0⟩ + 1⟩ 0).1 (by decide),
   (verify_token_failure_modes { DATABASE_URL := "db", BETTER_AUTH_SECRET := "k" } 5
      (jwtEncode "k" ⟨some "1", some "a@x.com", some 1, some 0⟩) 1).2.1 rfl (by decide),
   (verify_token_failure_modes { DATABASE_URL := "db", BETTER_AUTH_SECRET := "k" } 5
      (jwtEncode "k" ⟨some "1", none, some 1000, some 0⟩) 0).2.2 (by decide) (Or.inr rfl)⟩

/-! ### C5: signin failure causes are indistinguishable -/

/-- C5: whenever signin fails — the email is unknown, or the user exists but
the password does not verify — the outcome is the single 401 with the
identical message "Invalid email or password". -/
theorem signin_failure_single_error (credentials : UserLogin) (now : Nat)
    (s : Settings) (st : DBState)
    (h : Option.all (fun u => ! verify_password credentials.password u.password_hash)
          (findUserByEmail st credentials.email) = true) :
    signin credentials now s st = .error (.http 401 "Invalid email or password") := by
  rw [signin]
  cases hf : findUserByEmail st credentials.email with
  | none => rfl
  | some u =>
    rw [hf] at h
    simp only [Option.all, Bool.not_eq_true'] at h
    simp [h]

/-- Witness for C5: against a store holding the account `a@x.com`, an
unknown email and a wrong password for the known email both yield the very
same 401 outcome. -/
theorem signin_failure_single_error_witness :
    signin ⟨"missing@x.com", "whatever9"⟩ 3
        { DATABASE_URL := "db", BETTER_AUTH_SECRET := "k" }
        ⟨[⟨1, "a@x.com", hash_password "password1", 0⟩], [], 2, 1⟩
      = .error (.http 401 "Invalid email or password")
  ∧ signin ⟨"a@x.com", "wrongpass1"⟩ 3
        { DATABASE_URL := "db", BETTER_AUTH_SECRET := "k" }
        ⟨[⟨1, "a@x.com", hash_password "password1", 0⟩], [], 2, 1⟩
      = .error (.http 401 "Invalid email or password") :=
  ⟨signin_failure_single_error _ _ _ _ (by decide),
   signin_failure_single_error _ _ _ _ (by decide)⟩

/-! ### C6: duplicate registration -/

/-- C6: when an email is not yet registered, signup persists the identity
and returns a token; a second signup with the same email (case-sensitive
exact match) then fails with 400 Conflict regardless of the password
supplied, leaving the stored identities unchanged. -/
theorem signup_twice_conflict (b b2 : UserCreate) (now1 now2 : Nat)
    (s : Settings) (st : DBState)
    (h : findUserByEmail st b.email = none) (hb : b2.email = b.email) :
    signup b now1 s st =
      (.ok (create_access_token s now1 st.nextUserId b.email,
          ⟨st.nextUserId, b.email, now1⟩),
        { st with
          users := st.users ++ [⟨st.nextUserId, b.email, hash_password b.password, now1⟩],
          nextUserId := st.nextUserId + 1 })
  ∧ findUserByEmail
      { st with
        users := st.users ++ [⟨st.nextUserId, b.email, hash_password b.password, now1⟩],
        nextUserId := st.nextUserId + 1 } b.email
      = some ⟨st.nextUserId, b.email, hash_password b.password, now1⟩
  ∧ signup b2 now2 s
      { st with
        users := st.users ++ [⟨st.nextUserId, b.email, hash_password b.password, now1⟩],
        nextUserId := st.nextUserId + 1 }
      = (.error (.http 400 "Email already registered"),
        { st with
          users := st.users ++ [⟨st.nextUserId, b.email, hash_password b.password, now1⟩],
          nextUserId := st.nextUserId + 1 }) := by
  have hfound : findUserByEmail
      { st with
        users := st.users ++ [⟨st.nextUserId, b.email, hash_password b.password, now1⟩],
        nextUserId := st.nextUserId + 1 } b.email
      = some ⟨st.nextUserId, b.email, hash_password b.password, now1⟩ := by
    rw [findUserByEmail] at h ⊢
    simp only [List.find?_append, h, Option.none_or]
    simp [List.find?]
  refine ⟨?_, hfound, ?_⟩
  · simp [signup, h]
  · rw [signup, hb, hfound]

/-- Witness for C6: registering `a@x.com` in the empty store succeeds with a
token, and a second registration of `a@x.com` with a different password
fails with the Conflict error, leaving the state as after the first call. -/
theorem signup_twice_conflict_witness :
    signup ⟨"a@x.com", "password1"⟩ 10
        { DATABASE_URL := "db", BETTER_AUTH_SECRET := "k" } ⟨[], [], 1, 1⟩
      = (.ok (create_access_token { DATABASE_URL := "db", BETTER_AUTH_SECRET := "k" }
            10 1 "a@x.com", ⟨1, "a@x.com", 10⟩),
        ⟨[⟨1, "a@x.com", hash_password "password1", 10⟩], [], 2, 1⟩)
  ∧ findUserByEmail ⟨[⟨1, "a@x.com", hash_password "password1", 10⟩], [], 2, 1⟩ "a@x.com"
      = some ⟨1, "a@x.com", hash_password "password1", 10⟩
  ∧ signup ⟨"a@x.com", "otherpass9"⟩ 20
        { DATABASE_URL := "db", BETTER_AUTH_SECRET := "k" }
        ⟨[⟨1, "a@x.com", hash_password "password1", 10⟩], [], 2, 1⟩
      = (.error (.http 400 "Email already registered"),
        ⟨[⟨1, "a@x.com", hash_password "password1", 10⟩], [], 2, 1⟩) :=
  signup_twice_conflict ⟨"a@x.com", "password1"⟩ ⟨"a@x.com", "otherpass9"⟩ 10 20
    { DATABASE_URL := "db", BETTER_AUTH_SECRET := "k" } ⟨[], [], 1, 1⟩ (by decide) rfl

/-! ### C2: unknown id and wrong owner give the identical NotFound -/

/-- C2: for an authenticated user, if no stored task has the requested id
with that user as owner — the id is unknown, or the task belongs to someone
else — then get, update, delete, and toggle all fail with the very same
404 "Task not found" outcome (never a 403, and no task data). -/
theorem task_by_id_missing_or_unowned_notFound (cur : TokenData) (tid : Int)
    (st : DBState) (bu : TaskUpdate) (bt : TaskCompletionToggle) (now : Nat)
    (h : ∀ t ∈ st.tasks, ¬ (t.id = tid ∧ t.user_id = cur.user_id)) :
    get_task cur.user_id tid cur st = .error notFoundError
  ∧ update_task bu cur.user_id tid cur now st = (.error notFoundError, st)
  ∧ delete_task cur.user_id tid cur st = (.error notFoundError, st)
  ∧ toggle_task_completion bt cur.user_id tid cur now st = (.error notFoundError, st)
  ∧ notFoundError = .http 404 "Task not found" := by
  have hf : findTask st cur.user_id tid = none := by
    rw [findTask, List.find?_eq_none]
    intro x hx
    simpa using h x hx
  refine ⟨?_, ?_, ?_, ?_, rfl⟩ <;>
    simp [get_task, update_task, delete_task, toggle_task_completion,
      validate_user_access, hf]

/-- Witness for C2: user 1 requesting task 7, which exists but is owned by
user 2, receives the identical 404 outcome from all four by-id handlers. -/
theorem task_by_id_missing_or_unowned_notFound_witness :
    get_task 1 7 ⟨1, "a@x.com"⟩
        ⟨[], [⟨7, 2, "secret task", none, false, 0, 0⟩], 3, 8⟩ = .error notFoundError
  ∧ update_task ⟨some "hacked", none⟩ 1 7 ⟨1, "a@x.com"⟩ 9
        ⟨[], [⟨7, 2, "secret task", none, false, 0, 0⟩], 3, 8⟩
      = (.error notFoundError, ⟨[], [⟨7, 2, "secret task", none, false, 0, 0⟩], 3, 8⟩)
  ∧ delete_task 1 7 ⟨1, "a@x.com"⟩
        ⟨[], [⟨7, 2, "secret task", none, false, 0, 0⟩], 3, 8⟩
      = (.error notFoundError, ⟨[], [⟨7, 2, "secret task", none, false, 0, 0⟩], 3, 8⟩)
  ∧ toggle_task_completion ⟨true⟩ 1 7 ⟨1, "a@x.com"⟩ 9
        ⟨[], [⟨7, 2, "secret task", none, false, 0, 0⟩], 3, 8⟩
      = (.error notFoundError, ⟨[], [⟨7, 2, "secret task", none, false, 0, 0⟩], 3, 8⟩)
  ∧ notFoundError = .http 404 "Task not found" :=
  task_by_id_missing_or_unowned_notFound ⟨1, "a@x.com"⟩ 7
    ⟨[], [⟨7, 2, "secret task", none, false, 0, 0⟩], 3, 8⟩
    ⟨some "hacked", none⟩ ⟨true⟩ 9 (by decide)

/-! ### C8: partial update frame -/

/-- C8: a successful partial update of an owned task changes only supplied
fields: an omitted title or description keeps its prior value
(`Option.getD` / `Option.or` of the request against the row), `id`,
`user_id`, `is_completed`, and `created_at` are unchanged, and `updated_at`
becomes `now`, no earlier than its prior value. -/
theorem update_task_partial_frame (cur : TokenData) (tid : Int) (st : DBState)
    (b : TaskUpdate) (now : Nat) (t : Task)
    (hf : findTask st cur.user_id tid = some t) (hnow : t.updated_at ≤ now) :
    (update_task b cur.user_id tid cur now st).1 =
      .ok { id := t.id, user_id := t.user_id,
            title := b.title.getD t.title,
            description := b.description.or t.description,
            is_completed := t.is_completed,
            created_at := t.created_at,
            updated_at := now }
  ∧ (update_task b cur.user_id tid cur now st).2.tasks =
      st.tasks.map (fun x => if x.id == t.id then
        { t with
          title := b.title.getD t.title,
          description := b.description.or t.description,
          updated_at := now } else x)
  ∧ t.updated_at ≤ now := by
  have hform : ∀ u : Option String, (match u with | some v => v | none => t.title)
      = u.getD t.title := by intro u; cases u <;> rfl
  have hform2 : ∀ u : Option String,
      (match u with | some v => some v | none => t.description)
      = u.or t.description := by intro u; cases u <;> rfl
  refine ⟨?_, ?_, hnow⟩ <;>
    simp [update_task, validate_user_access, hf, Task.toResponse, hform, hform2]

/-- Witness for C8: updating only the description of task 3 keeps its
title, owner, completion flag, and creation time, and moves `updated_at`
from 5 to 9. -/
theorem update_task_partial_frame_witness :
    (update_task ⟨none, some "2 liters"⟩ 1 3 ⟨1, "a@x.com"⟩ 9
        ⟨[], [⟨3, 1, "Buy milk", none, false, 5, 5⟩], 2, 4⟩).1 =
      .ok { id := 3, user_id := 1,
            title := (none : Option String).getD "Buy milk",
            description := (some "2 liters").or none,
            is_completed := false, created_at := 5, updated_at := 9 }
  ∧ (update_task ⟨none, some "2 liters"⟩ 1 3 ⟨1, "a@x.com"⟩ 9
        ⟨[], [⟨3, 1, "Buy milk", none, false, 5, 5⟩], 2, 4⟩).2.tasks =
      [⟨3, 1, "Buy milk", none, false, 5, 5⟩].map
        (fun x => if x.id == (3 : Int) then
          ⟨3, 1, (none : Option String).getD "Buy milk", (some "2 liters").or none,
            false, 5, 9⟩ else x)
  ∧ (5 : Nat) ≤ 9 :=
  update_task_partial_frame ⟨1, "a@x.com"⟩ 3
    ⟨[], [⟨3, 1, "Buy milk", none, false, 5, 5⟩], 2, 4⟩
    ⟨none, some "2 liters"⟩ 9 ⟨3, 1, "Buy milk", none, false, 5, 5⟩
    (by decide) (by decide)

/-! ### Helper lemmas about the owner-scoped queries -/

lemma findTask_mem_owner {st : DBState} {uid tid : Int} {t : Task}
    (h : findTask st uid tid = some t) :
    t ∈ st.tasks ∧ t.id = tid ∧ t.user_id = uid := by
  refine ⟨List.mem_of_find?_eq_some h, ?_⟩
  have hp := List.find?_some h
  simpa using hp

lemma tasksForUser_owner (st : DBState) (uid : Int) :
    ∀ x ∈ tasksForUser st uid, x.user_id = uid := by
  intro x hx
  rw [tasksForUser, List.mem_mergeSort] at hx
  have hp := (List.mem_filter.mp hx).2
  simpa using hp

lemma uniqueTaskIds_eq {st : DBState} (hu : uniqueTaskIds st) {x y : Task}
    (hx : x ∈ st.tasks) (hy : y ∈ st.tasks) (hid : x.id = y.id) : x = y := by
  by_contra hne
  rw [uniqueTaskIds] at hu
  exact (hu.forall (fun a b hab => hab ∘ Eq.symm) hx hy hne) hid

lemma touchesOnlyUser_refl (uid : Int) (st : DBState) : touchesOnlyUser uid st st :=
  ⟨fun _ ht => Or.inl ht, fun _ ht => Or.inl ht⟩

lemma touchesOnlyUser_append (uid : Int) (st st2 : DBState) (new : Task)
    (hnew : new.user_id = uid) (h2 : st2.tasks = st.tasks ++ [new]) :
    touchesOnlyUser uid st st2 := by
  constructor
  · intro y hy
    rw [h2, List.mem_append] at hy
    rcases hy with hy | hy
    · exact Or.inl hy
    · rcases List.mem_singleton.mp hy with rfl
      exact Or.inr hnew
  · intro x hx
    exact Or.inl (by rw [h2]; exact List.mem_append_left _ hx)

lemma touchesOnlyUser_replace (uid : Int) (st st2 : DBState)
    (hu : uniqueTaskIds st) (t t' : Task) (ht : t ∈ st.tasks)
    (htu : t.user_id = uid) (ht' : t'.user_id = uid)
    (h2 : st2.tasks = st.tasks.map (fun x => if x.id == t.id then t' else x)) :
    touchesOnlyUser uid st st2 := by
  constructor
  · intro y hy
    rw [h2] at hy
    rcases List.mem_map.mp hy with ⟨x, hx, rfl⟩
    by_cases hid : x.id = t.id
    · simp [hid]
      exact Or.inr ht'
    · simp [hid]
      exact Or.inl hx
  · intro x hx
    by_cases hid : x.id = t.id
    · rcases uniqueTaskIds_eq hu hx ht hid
      exact Or.inr htu
    · refine Or.inl ?_
      rw [h2]
      refine List.mem_map.mpr ⟨x, hx, ?_⟩
      simp [hid]

lemma touchesOnlyUser_erase (uid : Int) (st st2 : DBState)
    (hu : uniqueTaskIds st) (t : Task) (ht : t ∈ st.tasks) (htu : t.user_id = uid)
    (h2 : st2.tasks = st.tasks.filter (fun x => !(x.id == t.id))) :
    touchesOnlyUser uid st st2 := by
  constructor
  · intro y hy
    rw [h2] at hy
    exact Or.inl (List.mem_filter.mp hy).1
  · intro x hx
    by_cases hid : x.id = t.id
    · rcases uniqueTaskIds_eq hu hx ht hid
      exact Or.inr htu
    · refine Or.inl ?_
      rw [h2]
      exact List.mem_filter.mpr ⟨hx, by simp [hid]⟩

/-! ### C1: the path/token access guard on every task route -/

/-- C1: on each of the six task routes, a token/path user-id mismatch fails
with the 403 Forbidden error before any store access (the state is returned
untouched); when they agree, no 403 is raised and every store operation is
keyed by the token-derived identity: listed and returned tasks all belong to
it, and state changes add, rewrite, or remove only rows it owns. -/
theorem task_routes_access_guard (cur : TokenData) (uid tid : Int) (st : DBState)
    (bc : TaskCreate) (bu : TaskUpdate) (bt : TaskCompletionToggle) (now : Nat)
    (huniq : uniqueTaskIds st) :
    (cur.user_id ≠ uid →
      get_tasks cur uid st = .error forbiddenError
      ∧ create_task bc uid cur now st = (.error forbiddenError, st)
      ∧ get_task uid tid cur st = .error forbiddenError
      ∧ update_task bu uid tid cur now st = (.error forbiddenError, st)
      ∧ delete_task uid tid cur st = (.error forbiddenError, st)
      ∧ toggle_task_completion bt uid tid cur now st = (.error forbiddenError, st))
  ∧ (cur.user_id = uid →
      isForbiddenOutcome (get_tasks cur uid st) = false
      ∧ isForbiddenOutcome (create_task bc uid cur now st).1 = false
      ∧ isForbiddenOutcome (get_task uid tid cur st) = false
      ∧ isForbiddenOutcome (update_task bu uid tid cur now st).1 = false
      ∧ isForbiddenOutcome (delete_task uid tid cur st).1 = false
      ∧ isForbiddenOutcome (toggle_task_completion bt uid tid cur now st).1 = false
      ∧ listScopedTo cur.user_id (get_tasks cur uid st)
      ∧ respScopedTo cur.user_id (create_task bc uid cur now st).1
      ∧ respScopedTo cur.user_id (get_task uid tid cur st)
      ∧ respScopedTo cur.user_id (update_task bu uid tid cur now st).1
      ∧ respScopedTo cur.user_id (toggle_task_completion bt uid tid cur now st).1
      ∧ touchesOnlyUser cur.user_id st (create_task bc uid cur now st).2
      ∧ touchesOnlyUser cur.user_id st (update_task bu uid tid cur now st).2
      ∧ touchesOnlyUser cur.user_id st (delete_task uid tid cur st).2
      ∧ touchesOnlyUser cur.user_id st (toggle_task_completion bt uid tid cur now st).2) := by
  constructor
  · intro h
    refine ⟨?_, ?_, ?_, ?_, ?_, ?_⟩ <;>
      simp [get_tasks, create_task, get_task, update_task, delete_task,
        toggle_task_completion, validate_user_access, h]
  · intro h
    subst h
    cases hft : findTask st cur.user_id tid with
    | none =>
      refine ⟨?_, ?_, ?_, ?_, ?_, ?_, ?_, ?_, ?_, ?_, ?_, ?_, ?_, ?_, ?_⟩
      · simp [get_tasks, validate_user_access, isForbiddenOutcome]
      · simp [create_task, validate_user_access, isForbiddenOutcome]
      · simp [get_task, validate_user_access, hft, isForbiddenOutcome, notFoundError]
      · simp [update_task, validate_user_access, hft, isForbiddenOutcome, notFoundError]
      · simp [delete_task, validate_user_access, hft, isForbiddenOutcome, notFoundError]
      · simp [toggle_task_completion, validate_user_access, hft, isForbiddenOutcome,
          notFoundError]
      · simp [get_tasks, validate_user_access, listScopedTo]
        intro r hr
        have hro := tasksForUser_owner st cur.user_id r hr
        simpa [Task.toResponse] using hro
      · simp [create_task, validate_user_access, respScopedTo, Task.toResponse]
      · simp [get_task, validate_user_access, hft, respScopedTo]
      · simp [update_task, validate_user_access, hft, respScopedTo]
      · simp [toggle_task_completion, validate_user_access, hft, respScopedTo]
      · exact touchesOnlyUser_append cur.user_id st _
          { id := st.nextTaskId, user_id := cur.user_id, title := bc.title,
            description := bc.description, is_completed := false, created_at := now,
            updated_at := now } rfl
          (by simp [create_task, validate_user_access])
      · have h2 : (update_task bu cur.user_id tid cur now st).2 = st := by
          simp [update_task, validate_user_access, hft]
        rw [h2]; exact touchesOnlyUser_refl _ _
      · have h2 : (delete_task cur.user_id tid cur st).2 = st := by
          simp [delete_task, validate_user_access, hft]
        rw [h2]; exact touchesOnlyUser_refl _ _
      · have h2 : (toggle_task_completion bt cur.user_id tid cur now st).2 = st := by
          simp [toggle_task_completion, validate_user_access, hft]
        rw [h2]; exact touchesOnlyUser_refl _ _
    | some t =>
      obtain ⟨htmem, -, htuid⟩ := findTask_mem_owner hft
      refine ⟨?_, ?_, ?_, ?_, ?_, ?_, ?_, ?_, ?_, ?_, ?_, ?_, ?_, ?_, ?_⟩
      · simp [get_tasks, validate_user_access, isForbiddenOutcome]
      · simp [create_task, validate_user_access, isForbiddenOutcome]
      · simp [get_task, validate_user_access, hft, isForbiddenOutcome]
      · simp [update_task, validate_user_access, hft, isForbiddenOutcome]
      · simp [delete_task, validate_user_access, hft, isForbiddenOutcome]
      · simp [toggle_task_completion, validate_user_access, hft, isForbiddenOutcome]
      · simp [get_tasks, validate_user_access, listScopedTo]
        intro r hr
        have hro := tasksForUser_owner st cur.user_id r hr
        simpa [Task.toResponse] using hro
      · simp [create_task, validate_user_access, respScopedTo, Task.toResponse]
      · simp [get_task, validate_user_access, hft, respScopedTo, Task.toResponse, htuid]
      · simp [update_task, validate_user_access, hft, respScopedTo, Task.toResponse, htuid]
      · simp [toggle_task_completion, validate_user_access, hft, respScopedTo,
          Task.toResponse, htuid]
      · exact touchesOnlyUser_append cur.user_id st _
          { id := st.nextTaskId, user_id := cur.user_id, title := bc.title,
            description := bc.description, is_completed := false, created_at := now,
            updated_at := now } rfl
          (by simp [create_task, validate_user_access])
      · refine touchesOnlyUser_replace cur.user_id st _ huniq t
          { t with
            title := match bu.title with | some v => v | none => t.title,
            description := match bu.description with | some v => some v | none => t.description,
            updated_at := now }
          htmem htuid htuid ?_
        simp [update_task, validate_user_access, hft]
      · refine touchesOnlyUser_erase cur.user_id st _ huniq t htmem htuid ?_
        simp [delete_task, validate_user_access, hft]
      · refine touchesOnlyUser_replace cur.user_id st _ huniq t
          { t with is_completed := bt.is_completed, updated_at := now }
          htmem htuid htuid ?_
        simp [toggle_task_completion, validate_user_access, hft]

/-- Witness for C1: with user 1's token, requesting user 2's path yields the
403 on all six routes with the store untouched; requesting the own path
raises no 403 and every result and state change stays within user 1's rows. -/
theorem task_routes_access_guard_witness :
    (get_tasks ⟨1, "a@x.com"⟩ 2 ⟨[], [⟨10, 1, "t1", none, false, 0, 0⟩], 3, 11⟩
        = .error forbiddenError
      ∧ create_task ⟨"new", none⟩ 2 ⟨1, "a@x.com"⟩ 4
          ⟨[], [⟨10, 1, "t1", none, false, 0, 0⟩], 3, 11⟩
        = (.error forbiddenError, ⟨[], [⟨10, 1, "t1", none, false, 0, 0⟩], 3, 11⟩)
      ∧ get_task 2 10 ⟨1, "a@x.com"⟩ ⟨[], [⟨10, 1, "t1", none, false, 0, 0⟩], 3, 11⟩
        = .error forbiddenError
      ∧ update_task ⟨some "x", none⟩ 2 10 ⟨1, "a@x.com"⟩ 4
          ⟨[], [⟨10, 1, "t1", none, false, 0, 0⟩], 3, 11⟩
        = (.error forbiddenError, ⟨[], [⟨10, 1, "t1", none, false, 0, 0⟩], 3, 11⟩)
      ∧ delete_task 2 10 ⟨1, "a@x.com"⟩ ⟨[], [⟨10, 1, "t1", none, false, 0, 0⟩], 3, 11⟩
        = (.error forbiddenError, ⟨[], [⟨10, 1, "t1", none, false, 0, 0⟩], 3, 11⟩)
      ∧ toggle_task_completion ⟨true⟩ 2 10 ⟨1, "a@x.com"⟩ 4
          ⟨[], [⟨10, 1, "t1", none, false, 0, 0⟩], 3, 11⟩
        = (.error forbiddenError, ⟨[], [⟨10, 1, "t1", none, false, 0, 0⟩], 3, 11⟩))
  ∧ (isForbiddenOutcome (get_tasks ⟨1, "a@x.com"⟩ 1
        ⟨[], [⟨10, 1, "t1", none, false, 0, 0⟩], 3, 11⟩) = false
      ∧ isForbiddenOutcome (create_task ⟨"new", none⟩ 1 ⟨1, "a@x.com"⟩ 4
          ⟨[], [⟨10, 1, "t1", none, false, 0, 0⟩], 3, 11⟩).1 = false
      ∧ isForbiddenOutcome (get_task 1 10 ⟨1, "a@x.com"⟩
          ⟨[], [⟨10, 1, "t1", none, false, 0, 0⟩], 3, 11⟩) = false
      ∧ isForbiddenOutcome (update_task ⟨some "x", none⟩ 1 10 ⟨1, "a@x.com"⟩ 4
          ⟨[], [⟨10, 1, "t1", none, false, 0, 0⟩], 3, 11⟩).1 = false
      ∧ isForbiddenOutcome (delete_task 1 10 ⟨1, "a@x.com"⟩
          ⟨[], [⟨10, 1, "t1", none, false, 0, 0⟩], 3, 11⟩).1 = false
      ∧ isForbiddenOutcome (toggle_task_completion ⟨true⟩ 1 10 ⟨1, "a@x.com"⟩ 4
          ⟨[], [⟨10, 1, "t1", none, false, 0, 0⟩], 3, 11⟩).1 = false
      ∧ listScopedTo 1 (get_tasks ⟨1, "a@x.com"⟩ 1
          ⟨[], [⟨10, 1, "t1", none, false, 0, 0⟩], 3, 11⟩)
      ∧ respScopedTo 1 (create_task ⟨"new", none⟩ 1 ⟨1, "a@x.com"⟩ 4
          ⟨[], [⟨10, 1, "t1", none, false, 0, 0⟩], 3, 11⟩).1
      ∧ respScopedTo 1 (get_task 1 10 ⟨1, "a@x.com"⟩
          ⟨[], [⟨10, 1, "t1", none, false, 0, 0⟩], 3, 11⟩)
      ∧ respScopedTo 1 (update_task ⟨some "x", none⟩ 1 10 ⟨1, "a@x.com"⟩ 4
          ⟨[], [⟨10, 1, "t1", none, false, 0, 0⟩], 3, 11⟩).1
      ∧ respScopedTo 1 (toggle_task_completion ⟨true⟩ 1 10 ⟨1, "a@x.com"⟩ 4
          ⟨[], [⟨10, 1, "t1", none, false, 0, 0⟩], 3, 11⟩).1
      ∧ touchesOnlyUser 1 ⟨[], [⟨10, 1, "t1", none, false, 0, 0⟩], 3, 11⟩
          (create_task ⟨"new", none⟩ 1 ⟨1, "a@x.com"⟩ 4
            ⟨[], [⟨10, 1, "t1", none, false, 0, 0⟩], 3, 11⟩).2
      ∧ touchesOnlyUser 1 ⟨[], [⟨10, 1, "t1", none, false, 0, 0⟩], 3, 11⟩
          (update_task ⟨some "x", none⟩ 1 10 ⟨1, "a@x.com"⟩ 4
            ⟨[], [⟨10, 1, "t1", none, false, 0, 0⟩], 3, 11⟩).2
      ∧ touchesOnlyUser 1 ⟨[], [⟨10, 1, "t1", none, false, 0, 0⟩], 3, 11⟩
          (delete_task 1 10 ⟨1, "a@x.com"⟩
            ⟨[], [⟨10, 1, "t1", none, false, 0, 0⟩], 3, 11⟩).2
      ∧ touchesOnlyUser 1 ⟨[], [⟨10, 1, "t1", none, false, 0, 0⟩], 3, 11⟩
          (toggle_task_completion ⟨true⟩ 1 10 ⟨1, "a@x.com"⟩ 4
            ⟨[], [⟨10, 1, "t1", none, false, 0, 0⟩], 3, 11⟩).2) :=
  ⟨(task_routes_access_guard ⟨1, "a@x.com"⟩ 2 10
      ⟨[], [⟨10, 1, "t1", none, false, 0, 0⟩], 3, 11⟩
      ⟨"new", none⟩ ⟨some "x", none⟩ ⟨true⟩ 4 (by simp [uniqueTaskIds])).1 (by decide),
   (task_routes_access_guard ⟨1, "a@x.com"⟩ 1 10
      ⟨[], [⟨10, 1, "t1", none, false, 0, 0⟩], 3, 11⟩
      ⟨"new", none⟩ ⟨some "x", none⟩ ⟨true⟩ 4 (by simp [uniqueTaskIds])).2 rfl⟩

/-! ### C7: list ordering -/

lemma taskLE_trans : ∀ (a b c : Task), taskLE a b → taskLE b c → taskLE a c := by
  intro a b c hab hbc
  simp only [taskLE, decide_eq_true_eq] at *
  omega

lemma taskLE_total : ∀ (a b : Task), taskLE a b || taskLE b a := by
  intro a b
  simp only [taskLE, Bool.or_eq_true, decide_eq_true_eq]
  omega

/-- C7 counterexample: two tasks owned by user 1 share `created_at = 5` and
were inserted as T1 (id 1) then T2 (id 2).  Both the insertion order
[T1, T2] and the reversed order [T2, T1] satisfy everything the source's
secondary-keyless `ORDER BY created_at` query guarantees
(`isOrderByCreatedAtResult`), and the reversed order is a different list —
so the claimed insertion-order tie-break is not a property of the program:
the query contract admits an answer that violates it. -/
theorem list_tie_break_counterexample :
    isOrderByCreatedAtResult
        [⟨1, 1, "T1", none, false, 5, 5⟩, ⟨2, 1, "T2", none, false, 5, 5⟩]
        [⟨2, 1, "T2", none, false, 5, 5⟩, ⟨1, 1, "T1", none, false, 5, 5⟩]
  ∧ isOrderByCreatedAtResult
        [⟨1, 1, "T1", none, false, 5, 5⟩, ⟨2, 1, "T2", none, false, 5, 5⟩]
        [⟨1, 1, "T1", none, false, 5, 5⟩, ⟨2, 1, "T2", none, false, 5, 5⟩]
  ∧ [(⟨2, 1, "T2", none, false, 5, 5⟩ : Task), ⟨1, 1, "T1", none, false, 5, 5⟩]
      ≠ [⟨1, 1, "T1", none, false, 5, 5⟩, ⟨2, 1, "T2", none, false, 5, 5⟩] := by
  unfold isOrderByCreatedAtResult
  refine ⟨⟨List.Perm.swap _ _ _, ?_⟩, ⟨List.Perm.refl _, ?_⟩, by decide⟩ <;>
    simp [List.pairwise_cons]

/-- C7 (amended): the list handler returns all and only the caller's tasks
ordered by creation time ascending — a sorted permutation of the
owner-filtered store, which is everything the secondary-keyless
`ORDER BY created_at` query guarantees; the relative order of tasks with
equal creation times is left unspecified by the program. -/
theorem get_tasks_sorted_permutation (cur : TokenData) (st : DBState) :
    get_tasks cur cur.user_id st
      = .ok ((tasksForUser st cur.user_id).map Task.toResponse)
  ∧ isOrderByCreatedAtResult
      (st.tasks.filter (fun t => t.user_id == cur.user_id))
      (tasksForUser st cur.user_id) := by
  constructor
  · simp [get_tasks, validate_user_access]
  · unfold isOrderByCreatedAtResult tasksForUser
    exact ⟨List.mergeSort_perm _ _,
      (List.sorted_mergeSort taskLE_trans taskLE_total _).imp
        (fun h => by simpa [taskLE] using h)⟩

/-! ### C9: short signing secrets and startup validation -/

/-- C9 counterexample: with a 5-character signing secret, `Settings.validate`
does reject the configuration, but the serverless entry point
(`backend/api/index.py`) never invokes it: the app is created anyway and a
request using the unvalidated secret is served at first use, so the
rejection does not happen at startup on that entry point. -/
theorem short_secret_index_startup_counterexample :
    Settings.validate
        { DATABASE_URL := "postgresql://localhost/db", BETTER_AUTH_SECRET := "short" }
      = .error ("BETTER_AUTH_SECRET must be at least 32 characters long. "
          ++ "Generate a secure secret with: openssl rand -base64 32")
  ∧ ("short".length < 32)
  ∧ indexModuleInit
        { DATABASE_URL := "postgresql://localhost/db", BETTER_AUTH_SECRET := "short" }
      = .ok ⟨{ DATABASE_URL := "postgresql://localhost/db", BETTER_AUTH_SECRET := "short" }⟩
  ∧ verify_token
        { DATABASE_URL := "postgresql://localhost/db", BETTER_AUTH_SECRET := "short" } 0
        (create_access_token
          { DATABASE_URL := "postgresql://localhost/db", BETTER_AUTH_SECRET := "short" }
          0 1 "a@x.com")
      = .ok ⟨1, "a@x.com"⟩ := by
  refine ⟨by decide, by decide, rfl, ?_⟩
  have hexp : ¬ ((0 : Nat) + 7 * 86400 < 0) := by omega
  simp [verify_token, create_access_token, jwtEncode, jwtDecode, hexp, pyInt_intToString]

/-- C9 (amended): `Settings.validate` rejects every configuration whose
signing secret is absent or shorter than 32 characters (hence every secret
shorter than 32 bytes), and the `backend/main.py` entry point runs it at
module load, so there startup aborts before any request; the serverless
entry point `backend/api/index.py`, however, creates the app without any
configuration validation, so on that entry point the short secret is not
rejected before requests are served. -/
theorem short_secret_rejected_at_main_startup (s : Settings)
    (h : s.BETTER_AUTH_SECRET.length < 32) :
    (Settings.validate s).isOk = false
  ∧ (mainModuleInit s).isOk = false
  ∧ indexModuleInit s = .ok ⟨s⟩ := by
  have hval : (Settings.validate s).isOk = false := by
    rw [Settings.validate]
    by_cases h1 : s.DATABASE_URL = ""
    · simp [h1, Except.isOk, Except.toBool]
    · by_cases h2 : s.BETTER_AUTH_SECRET = ""
      · simp [h1, h2, Except.isOk, Except.toBool]
      · simp [h1, h2, h, Except.isOk, Except.toBool]
  refine ⟨hval, ?_, rfl⟩
  rw [mainModuleInit]
  cases hv : Settings.validate s with
  | error msg => rfl
  | ok u => rw [hv] at hval; exact absurd hval (by simp [Except.isOk, Except.toBool])

/-- Witness for C9: a configuration with the 4-character secret "tiny" is
rejected by validation, aborts the main entry point's startup, and is
accepted unvalidated by the serverless entry point. -/
theorem short_secret_rejected_at_main_startup_witness :
    (Settings.validate { DATABASE_URL := "db", BETTER_AUTH_SECRET := "tiny" }).isOk = false
  ∧ (mainModuleInit { DATABASE_URL := "db", BETTER_AUTH_SECRET := "tiny" }).isOk = false
  ∧ indexModuleInit { DATABASE_URL := "db", BETTER_AUTH_SECRET := "tiny" }
      = .ok ⟨{ DATABASE_URL := "db", BETTER_AUTH_SECRET := "tiny" }⟩ :=
  short_secret_rejected_at_main_startup
    { DATABASE_URL := "db", BETTER_AUTH_SECRET := "tiny" } (by decide)

end TodoPhase2
